import Mathlib

/-!
Verification of the whale-watching habitat/migration analysis engine.

Shallow embedding of the Python sources:
- `src/src/data_acquisition/clean_data.py` (season derivation)
- `src/src/analysis/habitat_analysis.py` (WhaleHabitatAnalyzer)

Floats are modelled as real numbers (`ℝ`) where transcendental functions are
involved (haversine) and as exact rationals (`ℚ`) for coordinates, means and
distances used in decidable computations.  Timestamps (`eventdate`) are
modelled as integers ordered as the dates are.
-/

namespace Whale

/-- Embedding of `WhaleDataCleaner._get_season` (clean_data.py lines 107-117):
month 12/1/2 → Winter, 3/4/5 → Spring, 6/7/8 → Summer, anything else → Autumn.
The Python parameter is a plain `int`, so the domain is all of `ℤ`. -/
def getSeason (month : ℤ) : String :=
  if month = 12 ∨ month = 1 ∨ month = 2 then "Winter"
  else if month = 3 ∨ month = 4 ∨ month = 5 then "Spring"
  else if month = 6 ∨ month = 7 ∨ month = 8 then "Summer"
  else "Autumn"

/-- A cleaned sighting record as consumed by `WhaleHabitatAnalyzer`:
the columns `scientificname, latitude, longitude, eventdate` plus the
derived columns `year, month, season` added by the cleaning pipeline. -/
structure Record where
  scientificname : String
  latitude : ℚ
  longitude : ℚ
  eventdate : ℤ
  year : ℤ
  month : ℤ
  season : String
deriving DecidableEq, Repr

/-- Degrees to radians, embedding `np.radians`. -/
noncomputable def radians (x : ℝ) : ℝ := x * (Real.pi / 180)

/-- Embedding of `WhaleHabitatAnalyzer._haversine_distance`
(habitat_analysis.py lines 181-194).  The Python function performs no
range validation on its inputs; it is a total function of four floats. -/
noncomputable def haversineDistance (lat1 lon1 lat2 lon2 : ℝ) : ℝ :=
  let R : ℝ := 6371
  let rlat1 := radians lat1
  let rlon1 := radians lon1
  let rlat2 := radians lat2
  let rlon2 := radians lon2
  let dlat := rlat2 - rlat1
  let dlon := rlon2 - rlon1
  let a := Real.sin (dlat / 2) ^ 2 +
    Real.cos rlat1 * Real.cos rlat2 * Real.sin (dlon / 2) ^ 2
  let c := 2 * Real.arcsin (Real.sqrt a)
  R * c

/-- A per-period centroid row produced by `_calculate_centroids`:
`(period, centroid_lat, centroid_lon, sighting_count)`.  The period key is
an integer for `month` grouping and a string for `season` grouping. -/
structure Centroid (κ : Type) where
  period : κ
  centroid_lat : ℚ
  centroid_lon : ℚ
  sighting_count : ℕ
deriving DecidableEq

/-- Haversine distance between two centroids (coordinates cast ℚ → ℝ). -/
noncomputable def centroidDistance {κ : Type} (c d : Centroid κ) : ℝ :=
  haversineDistance (c.centroid_lat : ℝ) (c.centroid_lon : ℝ)
    (d.centroid_lat : ℝ) (d.centroid_lon : ℝ)

/-- Embedding of `WhaleHabitatAnalyzer._calculate_total_distance`
(habitat_analysis.py lines 132-145): `0.0` for fewer than 2 centroids,
otherwise the sum over `i` of the haversine distance between centroid `i`
and centroid `i+1`, which the consecutive-pairs zip expresses. -/
noncomputable def calculateTotalDistance {κ : Type} (cs : List (Centroid κ)) : ℝ :=
  if cs.length < 2 then 0
  else ((cs.zip cs.tail).map (fun p => centroidDistance p.1 p.2)).sum

/-- Sum of `f` over each consecutive pair of a list; the spec's reading of
"sums the great-circle distance between each consecutive pair". -/
noncomputable def consecSum {α : Type} (f : α → α → ℝ) : List α → ℝ
  | a :: b :: t => f a b + consecSum f (b :: t)
  | _ => 0

/-- Embedding of the grouping half of `_calculate_centroids`
(habitat_analysis.py lines 114-130): `df.groupby(group_col).agg(mean, mean,
count)`.  pandas `groupby` with its default `sort=True` returns the groups in
ascending order of the group key, embedded here by sorting the distinct keys.
The centroid coordinates are the arithmetic means of the group members. -/
def groupCentroids {κ : Type} [LinearOrder κ] (key : Record → κ)
    (recs : List Record) : List (Centroid κ) :=
  let keys := ((recs.map key).dedup).insertionSort (· ≤ ·)
  keys.map (fun k =>
    let group := recs.filter (fun r => decide (key r = k))
    { period := k,
      centroid_lat := (group.map (fun r => r.latitude)).sum / (group.length : ℚ),
      centroid_lon := (group.map (fun r => r.longitude)).sum / (group.length : ℚ),
      sighting_count := group.length })

/-- Embedding of `_calculate_centroids`'s dispatch on `time_window`
(habitat_analysis.py lines 118-121): `if time_window == 'month'` groups by the
month column, and the bare `else` groups by the season column — every value
other than `'month'` falls into the season branch, with no validation. -/
def calculateCentroids (recs : List Record) (tw : String) :
    List (Centroid ℤ) ⊕ List (Centroid String) :=
  if tw = "month" then Sum.inl (groupCentroids (fun r => r.month) recs)
  else Sum.inr (groupCentroids (fun r => r.season) recs)

/-- The season-period column of the centroids computed with
`time_window='season'`. -/
def seasonPeriods (recs : List Record) : List String :=
  match calculateCentroids recs "season" with
  | Sum.inl _ => []
  | Sum.inr cs => cs.map (fun c => c.period)

/-- Rank of a season in the fixed cycle the claim asserts:
Winter → Spring → Summer → Autumn.  This follows the claim's words and is
compared with the order the code produces. -/
def seasonCycleRank (s : String) : ℕ :=
  if s = "Winter" then 0
  else if s = "Spring" then 1
  else if s = "Summer" then 2
  else if s = "Autumn" then 3
  else 4

/-- Squared Euclidean distance in raw coordinate (degree) space, the metric
DBSCAN is run with in the source (`eps` compared against it). -/
def sqDist (p q : ℚ × ℚ) : ℚ := (p.1 - q.1) ^ 2 + (p.2 - q.2) ^ 2

/-- A point value is a core point when at least `minPts` points of the data
set (itself included, duplicates counted) lie within distance `eps` of it.
Modelled from the spec: §4.3's description of `sklearn.cluster.DBSCAN`, the
library call the source makes at habitat_analysis.py lines 70 and 163. -/
def coreAt (eps : ℚ) (minPts : ℕ) (pts : List (ℚ × ℚ)) (p : ℚ × ℚ) : Bool :=
  decide (minPts ≤ pts.countP (fun q => decide (sqDist p q ≤ eps ^ 2)))

/-- Indices of the points within `eps` of point `i` (the `eps`-neighborhood
query of DBSCAN). -/
def neighborIdxs (pts : List (ℚ × ℚ)) (eps : ℚ) (i : ℕ) : List ℕ :=
  (List.range pts.length).filter
    (fun j => decide (sqDist (pts.getD i (0, 0)) (pts.getD j (0, 0)) ≤ eps ^ 2))

/-- One cluster expansion of DBSCAN: breadth-first search from a seed core
point; every not-yet-labeled neighbor of a core point in the queue receives
the current cluster id, and newly labeled points are enqueued (border points
are labeled but, being non-core, never expanded).  Fuel bounds the recursion;
each queue element was labeled exactly once, so `(n+1)^2` fuel is ample.
Modelled from the spec: §4.3's DBSCAN description (sklearn's scan order). -/
def expandCluster (pts : List (ℚ × ℚ)) (eps : ℚ) (minPts : ℕ) (cl : ℤ) :
    ℕ → List ℕ → List ℤ → List ℤ
  | 0, _, labels => labels
  | _ + 1, [], labels => labels
  | fuel + 1, j :: queue, labels =>
    if coreAt eps minPts pts (pts.getD j (0, 0)) then
      let fresh := (neighborIdxs pts eps j).filter (fun k => labels.getD k (-1) == -1)
      let labels2 := fresh.foldl (fun ls k => ls.set k cl) labels
      expandCluster pts eps minPts cl fuel (queue ++ fresh) labels2
    else
      expandCluster pts eps minPts cl fuel queue labels

/-- DBSCAN labelling, modelled from the spec: §4.3 (the
`DBSCAN(eps=1.0, min_samples=5).fit` call of the source).  Points are scanned
in input order; each unlabeled core point seeds a new cluster (ids 0, 1, …)
which is expanded by `expandCluster`; points reached from no core point keep
the noise label −1. -/
def dbscanLabels (eps : ℚ) (minPts : ℕ) (pts : List (ℚ × ℚ)) : List ℤ :=
  let n := pts.length
  let step := fun (st : ℤ × List ℤ) (i : ℕ) =>
    if st.2.getD i (-1) == -1 && coreAt eps minPts pts (pts.getD i (0, 0)) then
      let labels1 := st.2.set i st.1
      let labels2 := expandCluster pts eps minPts st.1 ((n + 1) * (n + 1)) [i] labels1
      (st.1 + 1, labels2)
    else st
  ((List.range n).foldl step (0, List.replicate n (-1))).2

/-- The `(longitude, latitude)` coordinate matrix the analyzer feeds to
DBSCAN and the density estimator (`df[['longitude','latitude']].values`). -/
def coordsOf (recs : List Record) : List (ℚ × ℚ) :=
  recs.map (fun r => (r.longitude, r.latitude))

/-- One migration-corridor descriptor
(habitat_analysis.py lines 171-176). -/
structure Corridor where
  points : List (ℚ × ℚ)
  sighting_count : ℕ
  time_span : Option ℤ × Option ℤ
deriving DecidableEq, Repr

/-- The records of the cluster labeled `l` (the rows selected by
`df[clustering.labels_ == label]`). -/
def clusterRows (recs : List Record) (labels : List ℤ) (l : ℤ) : List Record :=
  ((recs.zip labels).filter (fun p => p.2 == l)).map (fun p => p.1)

/-- The corridor descriptor of the cluster labeled `l`: its `(lat, lon)`
points, their count, and the earliest and latest eventdate among them. -/
def mkCorridor (recs : List Record) (labels : List ℤ) (l : ℤ) : Corridor :=
  let rows := clusterRows recs labels l
  { points := rows.map (fun r => (r.latitude, r.longitude)),
    sighting_count := rows.length,
    time_span := ((rows.map (fun r => r.eventdate)).min?,
      (rows.map (fun r => r.eventdate)).max?) }

/-- Embedding of `_identify_migration_corridors`
(habitat_analysis.py lines 159-179): DBSCAN over the (lon, lat) scatter, then
one corridor per distinct label, skipping the noise label −1. -/
def identifyMigrationCorridors (recs : List Record) : List Corridor :=
  let labels := dbscanLabels 1 5 (coordsOf recs)
  ((labels.dedup).filter (fun l => l != -1)).map (mkCorridor recs labels)

/-- Embedding of `_calculate_seasonal_ranges`
(habitat_analysis.py lines 147-157): per season, the min/max latitude and
min/max longitude of that season's records, keys in ascending order
(pandas groupby default). -/
def calculateSeasonalRanges (recs : List Record) :
    List (String × ((Option ℚ × Option ℚ) × (Option ℚ × Option ℚ))) :=
  (((recs.map (fun r => r.season)).dedup).insertionSort (· ≤ ·)).map (fun s =>
    let group := recs.filter (fun r => r.season == s)
    (s, (((group.map (fun r => r.latitude)).min?, (group.map (fun r => r.latitude)).max?),
      ((group.map (fun r => r.longitude)).min?, (group.map (fun r => r.longitude)).max?))))

/-- Determinant of the (unscaled) scatter matrix of a point set; it is zero
exactly when the sample covariance matrix is singular. -/
def scatterDet (pts : List (ℚ × ℚ)) : ℚ :=
  let n : ℚ := (pts.length : ℚ)
  let mx := (pts.map (fun p => p.1)).sum / n
  let my := (pts.map (fun p => p.2)).sum / n
  let sxx := (pts.map (fun p => (p.1 - mx) ^ 2)).sum
  let syy := (pts.map (fun p => (p.2 - my) ^ 2)).sum
  let sxy := (pts.map (fun p => (p.1 - mx) * (p.2 - my))).sum
  sxx * syy - sxy ^ 2

/-- Failure condition of fitting the Gaussian KDE.  Modelled from the spec:
§4.2's description of `scipy.stats.gaussian_kde` (the library call at
habitat_analysis.py line 67): fitting fails when there are fewer than 2
points (more dimensions than samples) or when the data covariance is
singular. -/
def kdeFails (pts : List (ℚ × ℚ)) : Bool :=
  decide (pts.length < 2) || decide (scatterDet pts = 0)

/-- The error kinds the analysis can raise (§7 of the spec): the ValueError
for an unsupported time period and the fitting error of the density
estimator. -/
inductive AnalysisError
  | invalidArgument
  | insufficientData
deriving DecidableEq, Repr

/-- The habitat-preference metrics bundle of `_calculate_habitat_metrics`:
the empty dict `{}` for an empty group, else total sightings, distinct
locations, hotspot count, the density estimate (modelled by the fitted
coordinate set) and the hotspot rows. -/
inductive HabitatMetrics
  | empty
  | bundle (total_sightings unique_locations hotspot_count : ℕ)
      (density_estimate : List (ℚ × ℚ)) (hotspots : List Record)
deriving DecidableEq, Repr

/-- Embedding of `_calculate_habitat_metrics`
(habitat_analysis.py lines 60-79): empty input short-circuits to `{}`
before the density estimator runs; otherwise the KDE is fitted first (its
failure propagates) and DBSCAN marks the hotspot rows (label ≠ −1). -/
def calculateHabitatMetrics (recs : List Record) :
    Except AnalysisError HabitatMetrics :=
  if recs.isEmpty then Except.ok HabitatMetrics.empty
  else if kdeFails (coordsOf recs) then Except.error AnalysisError.insufficientData
  else
    let labels := dbscanLabels 1 5 (coordsOf recs)
    let hotspots := ((recs.zip labels).filter (fun p => p.2 != -1)).map (fun p => p.1)
    Except.ok (HabitatMetrics.bundle recs.length
      ((recs.map (fun r => (r.latitude, r.longitude))).dedup).length
      hotspots.length (coordsOf recs) hotspots)

/-- Result shape of `analyze_habitat_preferences`: one bundle, or one bundle
per year / per season group. -/
inductive HabitatPrefResult
  | single (m : HabitatMetrics)
  | groupedYear (l : List (ℤ × HabitatMetrics))
  | groupedSeason (l : List (String × HabitatMetrics))

/-- Per-group metrics for the grouped path of `analyze_habitat_preferences`;
an error raised on any group propagates (nothing is caught). -/
def groupMetricsBy {κ : Type} [LinearOrder κ] (key : Record → κ)
    (recs : List Record) : Except AnalysisError (List (κ × HabitatMetrics)) :=
  (((recs.map key).dedup).insertionSort (· ≤ ·)).mapM (fun k =>
    (calculateHabitatMetrics (recs.filter (fun r => decide (key r = k)))).map
      (fun m => (k, m)))

/-- Embedding of `analyze_habitat_preferences`
(habitat_analysis.py lines 26-58).  `if species:` and `if time_period:` are
Python truthiness tests, so `None` and the empty string both skip the filter
and the grouping; a non-empty `time_period` other than `'year'`/`'season'`
raises the ValueError. -/
def analyzeHabitatPreferences (db : List Record) (species : Option String)
    (time_period : Option String) : Except AnalysisError HabitatPrefResult :=
  let filtered := match species with
    | some s => if s = "" then db else db.filter (fun r => r.scientificname == s)
    | none => db
  match time_period with
  | some tp =>
    if tp = "" then (calculateHabitatMetrics filtered).map HabitatPrefResult.single
    else if tp = "year" then
      (groupMetricsBy (fun r => r.year) filtered).map HabitatPrefResult.groupedYear
    else if tp = "season" then
      (groupMetricsBy (fun r => r.season) filtered).map HabitatPrefResult.groupedSeason
    else Except.error AnalysisError.invalidArgument
  | none => (calculateHabitatMetrics filtered).map HabitatPrefResult.single

/-- The migration-pattern metrics dict of `analyze_migration_patterns`
(habitat_analysis.py lines 104-110). -/
structure MigrationMetrics where
  centroids : List (Centroid ℤ) ⊕ List (Centroid String)
  total_distance : ℝ
  seasonal_ranges : List (String × ((Option ℚ × Option ℚ) × (Option ℚ × Option ℚ)))
  migration_corridors : List Corridor

/-- Result of `analyze_migration_patterns`: the empty dict `{}` when the
species has no records, else the metrics dict.  No error path exists in the
source. -/
inductive MigrationResult
  | empty
  | metrics (m : MigrationMetrics)

/-- Whether a migration result is the empty dict. -/
def migrationIsEmpty : MigrationResult → Bool
  | MigrationResult.empty => true
  | MigrationResult.metrics _ => false

/-- Embedding of `analyze_migration_patterns`
(habitat_analysis.py lines 81-112): filter to the species; on no records log
a warning and return `{}`; otherwise assemble centroids, total distance,
seasonal ranges and corridors. -/
noncomputable def analyzeMigrationPatterns (db : List Record) (species : String)
    (tw : String) : MigrationResult :=
  let ds := db.filter (fun r => r.scientificname == species)
  if ds.isEmpty then MigrationResult.empty
  else
    let cs := calculateCentroids ds tw
    MigrationResult.metrics
      { centroids := cs,
        total_distance := match cs with
          | Sum.inl l => calculateTotalDistance l
          | Sum.inr l => calculateTotalDistance l,
        seasonal_ranges := calculateSeasonalRanges ds,
        migration_corridors := identifyMigrationCorridors ds }

/-- Two sample records, inserted Winter first, Autumn second, to exercise the
season ordering of the centroid computation. -/
def recWinter : Record :=
  { scientificname := "Balaenoptera musculus", latitude := 10, longitude := 20,
    eventdate := 100, year := 2020, month := 1, season := "Winter" }

/-- Second sample record (Autumn). -/
def recAutumn : Record :=
  { scientificname := "Balaenoptera musculus", latitude := 30, longitude := 40,
    eventdate := 300, year := 2020, month := 10, season := "Autumn" }

/-- Sample record set with Winter inserted before Autumn. -/
def exC2 : List Record := [recWinter, recAutumn]

/-- A sighting of species `"X"` at the origin with the given eventdate. -/
def cluRec (d : ℤ) : Record :=
  { scientificname := "X", latitude := 0, longitude := 0,
    eventdate := d, year := 2020, month := 1, season := "Winter" }

/-- An isolated sighting far away from the origin cluster. -/
def farRec : Record :=
  { scientificname := "X", latitude := 50, longitude := 50,
    eventdate := 99, year := 2020, month := 7, season := "Summer" }

/-- Five co-located sightings (a dense cluster) plus one isolated noise
point. -/
def exC7 : List Record :=
  [cluRec 1, cluRec 2, cluRec 3, cluRec 4, cluRec 5, farRec]

/-- A point configuration with two dense clusters (four points at (0,0) with
an outrider at (1,0); four points at (4,0) with an outrider at (3,0)) and one
border point (2,0) lying within eps = 1 of a core point of each cluster while
itself having only 3 neighbors, hence non-core.  Which cluster absorbs the
border point depends on the scan order. -/
def borderPts : List (ℚ × ℚ) :=
  [(0, 0), (0, 0), (0, 0), (0, 0), (1, 0), (2, 0), (3, 0), (4, 0), (4, 0), (4, 0), (4, 0)]

theorem haversine_nonneg (lat1 lon1 lat2 lon2 : ℝ) :
    0 ≤ haversineDistance lat1 lon1 lat2 lon2 := by
  simp only [haversineDistance]
  have h : 0 ≤ Real.arcsin (Real.sqrt (Real.sin ((radians lat2 - radians lat1) / 2) ^ 2 +
      Real.cos (radians lat1) * Real.cos (radians lat2) *
        Real.sin ((radians lon2 - radians lon1) / 2) ^ 2)) :=
    Real.arcsin_nonneg.mpr (Real.sqrt_nonneg _)
  have h2 : (0 : ℝ) ≤ 2 := by norm_num
  have hR : (0 : ℝ) ≤ 6371 := by norm_num
  exact mul_nonneg hR (mul_nonneg h2 h)

theorem haversine_self (lat lon : ℝ) : haversineDistance lat lon lat lon = 0 := by
  simp [haversineDistance]

theorem haversine_symm (lat1 lon1 lat2 lon2 : ℝ) :
    haversineDistance lat1 lon1 lat2 lon2 = haversineDistance lat2 lon2 lat1 lon1 := by
  have hs : ∀ x y : ℝ, Real.sin ((x - y) / 2) ^ 2 = Real.sin ((y - x) / 2) ^ 2 := by
    intro x y
    rw [show (x - y) / 2 = -((y - x) / 2) by ring, Real.sin_neg, neg_sq]
  simp only [haversineDistance]
  rw [hs (radians lat2) (radians lat1), hs (radians lon2) (radians lon1),
    mul_comm (Real.cos (radians lat1)) (Real.cos (radians lat2))]

theorem centroidDistance_symm {κ : Type} (c d : Centroid κ) :
    centroidDistance c d = centroidDistance d c :=
  haversine_symm _ _ _ _

theorem centroidDistance_nonneg {κ : Type} (c d : Centroid κ) :
    0 ≤ centroidDistance c d :=
  haversine_nonneg _ _ _ _

theorem consecSum_nonneg {α : Type} (f : α → α → ℝ) (hf : ∀ a b, 0 ≤ f a b) :
    ∀ l : List α, 0 ≤ consecSum f l := by
  intro l
  induction l with
  | nil => simp [consecSum]
  | cons a t ih =>
    cases t with
    | nil => simp [consecSum]
    | cons b t2 => exact add_nonneg (hf a b) ih

theorem zipSum_eq_consecSum {α : Type} (f : α → α → ℝ) (l : List α) :
    ((l.zip l.tail).map (fun p => f p.1 p.2)).sum = consecSum f l := by
  induction l with
  | nil => simp [consecSum]
  | cons a t ih =>
    cases t with
    | nil => simp [consecSum]
    | cons b t2 =>
      simp only [List.tail_cons, List.zip_cons_cons, List.map_cons, List.sum_cons, consecSum]
      rw [← ih]
      simp

theorem totalDistance_eq_consecSum {κ : Type} (cs : List (Centroid κ)) :
    calculateTotalDistance cs = consecSum centroidDistance cs := by
  rw [calculateTotalDistance]
  by_cases h : cs.length < 2
  · rw [if_pos h]
    match cs, h with
    | [], _ => simp [consecSum]
    | [c], _ => simp [consecSum]
  · rw [if_neg h]
    exact zipSum_eq_consecSum _ cs

theorem consecSum_append_single {α : Type} (f : α → α → ℝ) (l : List α) (a : α) :
    consecSum f (l ++ [a]) =
      consecSum f l + (match l.getLast? with | none => 0 | some b => f b a) := by
  induction l with
  | nil => simp [consecSum]
  | cons x t ih =>
    cases t with
    | nil => simp [consecSum]
    | cons y t2 =>
      simp only [List.cons_append, consecSum, List.append_eq] at ih ⊢
      rw [ih, List.getLast?_cons_cons]
      ring

theorem consecSum_reverse {α : Type} (f : α → α → ℝ) (hf : ∀ a b, f a b = f b a)
    (l : List α) : consecSum f l.reverse = consecSum f l := by
  induction l with
  | nil => simp
  | cons a t ih =>
    rw [List.reverse_cons, consecSum_append_single, ih]
    cases t with
    | nil => simp [consecSum]
    | cons b t2 =>
      have hlast : (b :: t2).reverse.getLast? = some b := by
        rw [List.reverse_cons, List.getLast?_concat]
      rw [hlast]
      simp only [consecSum]
      rw [hf b a]
      ring

/-- Claim C1: `_calculate_total_distance` returns exactly the sum of haversine
great-circle distances between each consecutive pair of centroids, returns 0.0
when the sequence has fewer than 2 centroids, and the result is never
negative. -/
theorem totalDistance_consecutive_sum {κ : Type} (cs : List (Centroid κ)) :
    calculateTotalDistance cs = consecSum centroidDistance cs ∧
    calculateTotalDistance ([] : List (Centroid κ)) = 0 ∧
    (∀ c : Centroid κ, calculateTotalDistance [c] = 0) ∧
    0 ≤ calculateTotalDistance cs := by
  refine ⟨totalDistance_eq_consecSum cs, by simp [calculateTotalDistance],
    fun c => by simp [calculateTotalDistance], ?_⟩
  rw [totalDistance_eq_consecSum cs]
  exact consecSum_nonneg _ centroidDistance_nonneg cs

/-- Claim C9: reversing the order of the centroids leaves
`_calculate_total_distance` unchanged, because each segment's haversine
distance is symmetric in its endpoints. -/
theorem totalDistance_reverse_invariant {κ : Type} (cs : List (Centroid κ)) :
    calculateTotalDistance cs.reverse = calculateTotalDistance cs := by
  rw [totalDistance_eq_consecSum, totalDistance_eq_consecSum]
  exact consecSum_reverse _ centroidDistance_symm cs

/-- Claim C4 counterexample: `_haversine_distance` performs no range
validation — at latitude 100, which is outside [−90, 90], it still returns a
distance (0 for identical endpoints) instead of failing with
`InvalidCoordinate`. -/
theorem haversine_no_range_check_cex :
    ¬ ((-90 : ℝ) ≤ 100 ∧ (100 : ℝ) ≤ 90) ∧ haversineDistance 100 0 100 0 = 0 :=
  ⟨by norm_num, haversine_self 100 0⟩

/-- Claim C4 amended: `_haversine_distance` performs no coordinate validation
at all — it is a total function that returns a (non-negative) distance for
every real input, in range or not, and returns 0 on identical endpoints. -/
theorem haversine_total_no_validation (lat1 lon1 lat2 lon2 : ℝ) :
    0 ≤ haversineDistance lat1 lon1 lat2 lon2 ∧
    haversineDistance lat1 lon1 lat1 lon1 = 0 :=
  ⟨haversine_nonneg lat1 lon1 lat2 lon2, haversine_self lat1 lon1⟩

/-- Claim C10: `_get_season` is total over all integers and returns
`"Autumn"` for every month value not in {12, 1, 2, 3, 4, 5, 6, 7, 8},
including out-of-range months such as 0, 13, or negative values. -/
theorem getSeason_default_autumn (m : ℤ)
    (h : m ∉ ([12, 1, 2, 3, 4, 5, 6, 7, 8] : List ℤ)) : getSeason m = "Autumn" := by
  simp only [List.mem_cons, List.not_mem_nil, or_false] at h
  push_neg at h
  obtain ⟨h12, h1, h2, h3, h4, h5, h6, h7, h8⟩ := h
  simp [getSeason, h12, h1, h2, h3, h4, h5, h6, h7, h8]

/-- Witness for C10 at the out-of-range month 13. -/
theorem getSeason_default_autumn_witness :
    (13 : ℤ) ∉ ([12, 1, 2, 3, 4, 5, 6, 7, 8] : List ℤ) ∧ getSeason 13 = "Autumn" :=
  ⟨by decide, getSeason_default_autumn 13 (by decide)⟩

/-- Claim C2 counterexample: with records in Winter and Autumn (inserted
Winter first), `_calculate_centroids(time_window='season')` orders the
centroids `["Autumn", "Winter"]` — pandas groupby sorts the season strings
alphabetically — which is not the fixed cycle order
Winter → Spring → Summer → Autumn the claim asserts. -/
theorem centroids_alphabetical_not_cycle_cex :
    seasonPeriods exC2 = ["Autumn", "Winter"] ∧
    ¬ List.Sorted (fun a b => seasonCycleRank a ≤ seasonCycleRank b)
      (seasonPeriods exC2) := by
  constructor
  · with_unfolding_all rfl
  · with_unfolding_all exact of_decide_eq_true rfl

theorem groupCentroids_periods {κ : Type} [LinearOrder κ] (key : Record → κ)
    (recs : List Record) :
    (groupCentroids key recs).map (fun c => c.period) =
      ((recs.map key).dedup).insertionSort (fun a b => a ≤ b) := by
  unfold groupCentroids
  rw [List.map_map]
  generalize ((recs.map key).dedup).insertionSort (fun a b => a ≤ b) = ks
  induction ks with
  | nil => rfl
  | cons a t ih => simpa using ih

/-- Claim C2 amended: the centroid records produced by
`_calculate_centroids(time_window='season')` are ordered by ascending
lexicographic season-name order (Autumn, Spring, Summer, Winter — the
ascending key order of pandas groupby), not by the seasonal cycle. -/
theorem centroids_sorted_by_key (recs : List Record) :
    List.Sorted (fun a b : String => a ≤ b) (seasonPeriods recs) := by
  have h2 : ¬ ("season" = "month") := by decide
  have h3 : seasonPeriods recs =
      (groupCentroids (fun r => r.season) recs).map (fun c => c.period) := by
    simp only [seasonPeriods, calculateCentroids, if_neg h2]
  rw [h3, groupCentroids_periods]
  exact List.sorted_insertionSort _ _

/-- Claim C3 counterexample: for the species with two records in `exC2` and
the unsupported `time_window='year'`, `analyze_migration_patterns` returns a
non-empty metrics result instead of failing — the source validates nothing
and treats every non-`'month'` value as `'season'`. -/
theorem migration_no_invalid_argument_cex :
    ("year" ≠ "month" ∧ "year" ≠ "season") ∧
    migrationIsEmpty
      (analyzeMigrationPatterns exC2 "Balaenoptera musculus" "year") = false := by
  refine ⟨by decide, ?_⟩
  rfl

/-- Claim C3 amended: `analyze_migration_patterns` performs no validation of
`time_window`: every value other than `'month'` is treated exactly like
`'season'` (the call succeeds and returns the season-grouped result), and no
`InvalidArgument` error exists on this path. -/
theorem migration_time_window_fallback (db : List Record) (s tw : String)
    (h : tw ≠ "month") :
    analyzeMigrationPatterns db s tw = analyzeMigrationPatterns db s "season" := by
  have h2 : ¬ ("season" = "month") := by decide
  simp only [analyzeMigrationPatterns, calculateCentroids, if_neg h, if_neg h2]

/-- Witness for the amended C3 at the concrete unsupported value
`'year'`. -/
theorem migration_time_window_fallback_witness :
    analyzeMigrationPatterns exC2 "Balaenoptera musculus" "year" =
      analyzeMigrationPatterns exC2 "Balaenoptera musculus" "season" :=
  migration_time_window_fallback exC2 "Balaenoptera musculus" "year" (by decide)

/-- Claim C5: empty-but-valid inputs never raise — with no record matching
the species, `analyze_habitat_preferences` returns the empty bundle and
`analyze_migration_patterns` returns the empty result, for every
`time_window`. -/
theorem empty_inputs_no_error (db : List Record) (s tw : String)
    (hs : s ≠ "")
    (h : db.filter (fun r => r.scientificname == s) = []) :
    analyzeHabitatPreferences db (some s) none =
      Except.ok (HabitatPrefResult.single HabitatMetrics.empty) ∧
    analyzeMigrationPatterns db s tw = MigrationResult.empty := by
  constructor
  · simp only [analyzeHabitatPreferences, if_neg hs, h]
    rfl
  · simp only [analyzeMigrationPatterns, h]
    rfl

/-- Witness for C5: a collection holding only `Balaenoptera musculus`
records, queried for the absent species `"Unknown"`. -/
theorem empty_inputs_no_error_witness :
    analyzeHabitatPreferences exC2 (some "Unknown") none =
      Except.ok (HabitatPrefResult.single HabitatMetrics.empty) ∧
    analyzeMigrationPatterns exC2 "Unknown" "month" = MigrationResult.empty :=
  empty_inputs_no_error exC2 "Unknown" "month" (by decide) (by decide)

theorem scatterDet_replicate (n : ℕ) (c : ℚ × ℚ) (hn : n ≠ 0) :
    scatterDet (List.replicate n c) = 0 := by
  have hnq : ((n : ℚ)) ≠ 0 := Nat.cast_ne_zero.mpr hn
  simp [scatterDet, List.map_replicate, List.sum_replicate, nsmul_eq_mul,
    mul_div_cancel_left₀ _ hnq]

theorem scatterDet_const (pts : List (ℚ × ℚ)) (c : ℚ × ℚ) (hne : pts ≠ [])
    (hc : ∀ p ∈ pts, p = c) : scatterDet pts = 0 := by
  have hrep : pts = List.replicate pts.length c :=
    List.eq_replicate_iff.mpr ⟨rfl, hc⟩
  rw [hrep]
  exact scatterDet_replicate pts.length c
    (by simpa [List.length_eq_zero] using hne)

/-- Claim C6: for a non-empty group, the density-estimation step of
`_calculate_habitat_metrics` fails with `InsufficientDataError` when the
group has fewer than 2 points or when all its points coincide; in particular
a single-point group fails. -/
theorem kde_insufficient_data (recs : List Record) (hne : recs ≠ [])
    (h : recs.length < 2 ∨ ∃ c : ℚ × ℚ, ∀ p ∈ coordsOf recs, p = c) :
    calculateHabitatMetrics recs = Except.error AnalysisError.insufficientData := by
  have hisEmpty : recs.isEmpty = false := by
    cases recs with
    | nil => exact absurd rfl hne
    | cons a t => rfl
  have hcoordsne : coordsOf recs ≠ [] := by
    cases recs with
    | nil => exact absurd rfl hne
    | cons a t => simp [coordsOf]
  have hfail : kdeFails (coordsOf recs) = true := by
    rcases h with hlt | ⟨c, hc⟩
    · have hl : (coordsOf recs).length < 2 := by simpa [coordsOf] using hlt
      simp [kdeFails, hl]
    · have hd : scatterDet (coordsOf recs) = 0 := scatterDet_const _ c hcoordsne hc
      simp [kdeFails, hd]
  simp [calculateHabitatMetrics, hisEmpty, hfail]

/-- Witness for C6: the single-record group fails with
`InsufficientDataError`. -/
theorem kde_insufficient_data_witness :
    [recWinter] ≠ ([] : List Record) ∧
    calculateHabitatMetrics [recWinter] =
      Except.error AnalysisError.insufficientData :=
  ⟨by decide, kde_insufficient_data [recWinter] (by decide) (Or.inl (by decide))⟩

/-- Claim C7: `_identify_migration_corridors` emits exactly one corridor per
distinct non-noise cluster label; each corridor's points are exactly that
cluster's (lat, lon) rows (so rows labeled −1 contribute to no corridor),
its sighting_count is the number of those points, and its time_span is the
pair (earliest, latest) eventdate among them; and every non-noise label is
represented. -/
theorem corridors_one_per_cluster (recs : List Record) :
    (identifyMigrationCorridors recs).length =
      (((dbscanLabels 1 5 (coordsOf recs)).dedup).filter (fun l => l != -1)).length ∧
    (∀ c ∈ identifyMigrationCorridors recs, ∃ l : ℤ,
      l ∈ dbscanLabels 1 5 (coordsOf recs) ∧ l ≠ -1 ∧
      c.points = (clusterRows recs (dbscanLabels 1 5 (coordsOf recs)) l).map
        (fun r => (r.latitude, r.longitude)) ∧
      c.sighting_count = c.points.length ∧
      c.time_span = (((clusterRows recs (dbscanLabels 1 5 (coordsOf recs)) l).map
          (fun r => r.eventdate)).min?,
        ((clusterRows recs (dbscanLabels 1 5 (coordsOf recs)) l).map
          (fun r => r.eventdate)).max?)) ∧
    (∀ l : ℤ, l ∈ dbscanLabels 1 5 (coordsOf recs) → l ≠ -1 →
      mkCorridor recs (dbscanLabels 1 5 (coordsOf recs)) l ∈
        identifyMigrationCorridors recs) := by
  refine ⟨?_, ?_, ?_⟩
  · simp [identifyMigrationCorridors]
  · intro c hc
    simp only [identifyMigrationCorridors, List.mem_map] at hc
    obtain ⟨l, hl, rfl⟩ := hc
    rw [List.mem_filter] at hl
    refine ⟨l, List.mem_dedup.mp hl.1, by simpa using hl.2, rfl, ?_, rfl⟩
    simp [mkCorridor]
  · intro l hmem hne
    simp only [identifyMigrationCorridors]
    exact List.mem_map_of_mem _
      (List.mem_filter.mpr ⟨List.mem_dedup.mpr hmem, by simpa using hne⟩)

/-- Witness for C7: the five co-located records of `exC7` form one cluster
and the far point is noise, so exactly one corridor is emitted. -/
theorem corridors_one_per_cluster_witness :
    (identifyMigrationCorridors exC7).length = 1 :=
  (corridors_one_per_cluster exC7).1.trans (by with_unfolding_all rfl)

/-- Claim C8 counterexample: for the point set `borderPts` and its reversal
(a permutation of it), the border point at position 5 (the point (2,0)) is
non-noise in both runs, is grouped with the point (1,0) when the (0,0)-side
cluster is scanned first, but lands in the other cluster than (1,0) when the
input is reversed — cluster membership, not merely id numbering, depends on
the input order. -/
theorem dbscan_membership_order_dependent_cex :
    borderPts.reverse.Perm borderPts ∧
    borderPts.getD 5 (0, 0) = borderPts.reverse.getD 5 (0, 0) ∧
    borderPts.getD 4 (0, 0) = borderPts.reverse.getD 6 (0, 0) ∧
    (dbscanLabels 1 5 borderPts).getD 5 0 = (dbscanLabels 1 5 borderPts).getD 4 0 ∧
    (dbscanLabels 1 5 borderPts).getD 5 0 ≠ -1 ∧
    (dbscanLabels 1 5 borderPts.reverse).getD 5 0 ≠ -1 ∧
    (dbscanLabels 1 5 borderPts.reverse).getD 5 0 ≠
      (dbscanLabels 1 5 borderPts.reverse).getD 6 0 :=
  ⟨List.reverse_perm borderPts,
    by with_unfolding_all exact of_decide_eq_true rfl,
    by with_unfolding_all exact of_decide_eq_true rfl,
    by with_unfolding_all exact of_decide_eq_true rfl,
    by with_unfolding_all exact of_decide_eq_true rfl,
    by with_unfolding_all exact of_decide_eq_true rfl,
    by with_unfolding_all exact of_decide_eq_true rfl⟩

/-- Claim C8 amended: core-point status, and the property of lying within
eps of some core point (being non-noise), are order-independent — they are
functions of the point multiset — but full cluster membership is not: a
border point within eps of core points of two different clusters is absorbed
by whichever cluster the scan reaches first. -/
theorem dbscan_core_perm_invariant (ps qs : List (ℚ × ℚ)) (h : ps.Perm qs)
    (eps : ℚ) (minPts : ℕ) (p : ℚ × ℚ) :
    coreAt eps minPts ps p = coreAt eps minPts qs p ∧
    ((∃ q ∈ ps, coreAt eps minPts ps q = true ∧ sqDist p q ≤ eps ^ 2) ↔
      (∃ q ∈ qs, coreAt eps minPts qs q = true ∧ sqDist p q ≤ eps ^ 2)) := by
  have hcore : ∀ x, coreAt eps minPts ps x = coreAt eps minPts qs x := by
    intro x
    unfold coreAt
    rw [h.countP_eq]
  refine ⟨hcore p, ?_⟩
  constructor
  · rintro ⟨q, hq, hc, hd⟩
    exact ⟨q, h.mem_iff.mp hq, (hcore q).symm.trans hc, hd⟩
  · rintro ⟨q, hq, hc, hd⟩
    exact ⟨q, h.mem_iff.mpr hq, (hcore q).trans hc, hd⟩

/-- Witness for the amended C8: core status of the border point agrees
between `borderPts` and its reversal. -/
theorem dbscan_core_perm_invariant_witness :
    coreAt 1 5 borderPts (2, 0) = coreAt 1 5 borderPts.reverse (2, 0) :=
  (dbscan_core_perm_invariant borderPts borderPts.reverse
    (List.reverse_perm borderPts).symm 1 5 (2, 0)).1

end Whale
